import Mathlib

/-!
# Verification of the InferPy random-variable layer

Shallow embedding of the InferPy repository (a probabilistic-programming
front-end wrapping a native tensor/distribution engine) and proofs about it.

The embedding covers:
* the operator overloads and `_operator` helper of
  `inferpy1/inferpy/models/random_variable.py`;
* the `__getattr__` fallback and the `name` property of the same class;
* the `ELBO` loss of `inferpy/inference/loss_functions/elbo.py`;
* the model-building context manager
  `inferpy1/inferpy/models/contextmanager/q_model.py`;
* the parameter-shape validation of `inferpy/models/normal.py`;
* the `sample`/`prob`/`log_prob` methods and the `observed` property of the
  legacy wrapper `inferpy/models/random_variable.py`, together with
  `tf_run_wrapper` of `inferpy1/inferpy/util/wrappers.py`.

The native engine (TensorFlow / edward2) is opaque to this layer; it is
embedded either as an abstract type with abstract operations, or as a free
term algebra of symbolic graph nodes, whichever the claim needs.
-/

namespace InferPy

/-! ## Operator layer of `inferpy1/inferpy/models/random_variable.py`

`N` stands for the type of native engine objects (tensors, edward2 random
variables, Python numeric constants): everything that is not an InferPy
`RandomVariable` wrapper.  The wrapper class holds one native object in its
`var` field (`self.var = var` in `__init__`). -/

/-- The InferPy `RandomVariable` wrapper: it encapsulates one native
(edward2) object, stored in the attribute `var`. -/
structure RandomVariable (N : Type) where
  var : N
deriving DecidableEq, Repr

/-- A Python value as seen by the operator overloads: either a native engine
object (edward2 random variable, tensor, or numeric constant) or an InferPy
`RandomVariable` wrapper. -/
inductive PyVal (N : Type) where
  | native (x : N)
  | rv (w : RandomVariable N)
deriving DecidableEq, Repr

/-- The dunder names of the binary operator overloads defined on
`RandomVariable` that are routed through `_operator`
(`__add__` .. `__rmatmul__` in the source). -/
inductive OpName where
  | add | radd | sub | rsub | mul | rmul
  | div | rdiv | truediv | rtruediv | floordiv | rfloordiv
  | mod | rmod
  | lt | le | gt | ge
  | band | rband | bor | rbor | bxor | rbxor
  | pow | rpow
  | matmul | rmatmul
deriving DecidableEq, Repr

/-- The native engine's binary operators: for each dunder name, a function on
native objects.  Calling `getattr(var, operator_name)(x)` on a native edward2
object `var` with native argument `x` is `engine op var x`. -/
def Engine (N : Type) := OpName → N → N → N

/-- `other.var if isinstance(other, RandomVariable) else other`: the unwrapped
native object behind a Python value. -/
def PyVal.unwrap {N : Type} : PyVal N → N
  | .native x => x
  | .rv w => w.var

/-- `_operator(var, other, operator_name)`: gets the `operator_name` method
from the native object `var` and calls it on `other.var` if `other` is a
`RandomVariable`, otherwise on `other` itself. -/
def opHelper {N : Type} (engine : Engine N) (var : N) (other : PyVal N)
    (operatorName : OpName) : N :=
  engine operatorName var (PyVal.unwrap other)

/-- The body shared by all binary operator overloads of `RandomVariable`
(`__add__(self, other)` is `_operator(self.var, other, '__add__')`, and so on
for every name in `OpName`); the result is whatever the native engine
returned, living in the Python value universe. -/
def RandomVariable.binop {N : Type} (engine : Engine N)
    (self : RandomVariable N) (other : PyVal N) (operatorName : OpName) :
    PyVal N :=
  PyVal.native (opHelper engine self.var other operatorName)

/-- Is a Python value a wrapped InferPy random variable? -/
def PyVal.isWrapped {N : Type} : PyVal N → Bool
  | .native _ => false
  | .rv _ => true

end InferPy

namespace InferPy

/-! ## Deferred evaluation (`inferpy/util/runtime.py`, not in the tree)

The module `inferpy.util.runtime` only reaches this tree through its export
list (`tf_sess`, `tf_run_default`, `tf_run_eval`); its body is absent, so the
evaluation policy is modelled from the specification. -/

/-- The two possible shapes of a result under the deferred-evaluation policy:
materialized by running the engine's session, or left as a symbolic engine
object. -/
inductive RunOutcome (A : Type) where
  | evaluated (a : A)
  | symbolic (a : A)
deriving DecidableEq, Repr

/-- Modelled from the spec: `tf_run_eval` (from the absent module
`inferpy/util/runtime.py`) decides whether a result "is evaluated immediately
... or returned symbolically otherwise", according to the boolean evaluation
flag it receives. -/
def tf_run_eval {A : Type} (a : A) (tfRun : Bool) : RunOutcome A :=
  if tfRun then RunOutcome.evaluated a else RunOutcome.symbolic a

/-- The underlying object either way: the evaluated or symbolic result of
`tf_run_eval` carries the value it was given. -/
def RunOutcome.payload {A : Type} : RunOutcome A → A
  | evaluated a => a
  | symbolic a => a

/-! ## Attribute fallback and `name` of `inferpy1` `RandomVariable`

`self.var` is an edward2 random variable; `self.var.distribution` is the
distribution object inside it.  Their Python attribute dictionaries are
embedded as association lists from attribute name to attribute value (of an
abstract type `A`); `hasattr` is key membership, `getattr` is lookup. -/

/-- The distribution object inside an edward2 random variable: its `name`
attribute (a Python string) and the rest of its attributes. -/
structure DistributionObj (A : Type) where
  name : String
  attrs : List (String × A)

/-- An edward2 random variable as seen by the wrapper: its class name
(`type(self.var).__name__`), its own attributes, and its `distribution`. -/
structure EdwardObj (A : Type) where
  className : String
  attrs : List (String × A)
  distribution : DistributionObj A

/-- The `inferpy1` wrapper around an edward2 object, for the attribute and
name claims: `self.var` is the wrapped edward2 random variable. -/
structure WrapperRV (A : Type) where
  var : EdwardObj A

/-- `RandomVariable.__getattr__(self, name)`: first try the attribute on
`self.var`, then on `self.var.distribution`, else raise
`NotImplementedError('Property or method "{name}" not implemented in
"{classname}"')` with `classname = type(self.var).__name__`.  A found
attribute is returned through `tf_run_eval`. -/
def getattrFallback {A : Type} (tfRunDefault : Bool) (self : WrapperRV A)
    (attrName : String) : Except String (RunOutcome A) :=
  match self.var.attrs.lookup attrName with
  | some a => Except.ok (tf_run_eval a tfRunDefault)
  | none =>
    match self.var.distribution.attrs.lookup attrName with
    | some a => Except.ok (tf_run_eval a tfRunDefault)
    | none =>
      Except.error ("Property or method \"" ++ attrName
        ++ "\" not implemented in \"" ++ self.var.className ++ "\"")

/-- The `name` property of the `inferpy1` wrapper:
`ed_name = self.var.distribution.name; return ed_name[:-1]`.  The Python
slice `[:-1]` keeps all characters but the last (and is empty on strings of
length at most one). -/
def WrapperRV.nameProperty {A : Type} (self : WrapperRV A) : String :=
  String.mk (self.var.distribution.name.data.take
    (self.var.distribution.name.data.length - 1))

/-! ## ELBO loss (`inferpy/inference/loss_functions/elbo.py`)

After the interception/expansion phase, each model is a mapping from names to
expanded variables; the loss only reads, for each expanded variable `v`, its
`is_datamodel` flag and the tensor `v.log_prob(v.value)`.  An expanded
variable is embedded as that pair, with the log-probability tensor as its
list of entries (rationals standing for the engine's floats);
`tf.reduce_sum` over a tensor is the sum of its entries. -/

/-- One variable of an expanded model, as the ELBO loss consumes it:
its per-batch-element flag `is_datamodel` and the entries of the tensor
`v.log_prob(v.value)`. -/
structure ExpandedVar where
  is_datamodel : Bool
  logProbAtValue : List ℚ

/-- `tf.reduce_sum` of a tensor: the sum of its entries. -/
def tfReduceSum (entries : List ℚ) : ℚ := entries.sum

/-- The body of `ELBO(pmodel, qmodel, sample_dict, plate_size, batch_weight)`
after both models have been expanded to `pvars` and `qvars`:

* `energy = tf.reduce_sum([(batch_weight if p.is_datamodel else 1) *
  tf.reduce_sum(p.log_prob(p.value)) for p in pvars.values()])`;
* `entropy = - tf.reduce_sum([...same weighting... for q in qvars.values()
  if not q.is_datamodel])`;
* the returned loss is `-(energy + entropy)`. -/
def ELBObody (pvars qvars : List ExpandedVar) (batchWeight : ℚ) : ℚ :=
  let energy := tfReduceSum (pvars.map fun p =>
    (if p.is_datamodel then batchWeight else 1) * tfReduceSum p.logProbAtValue)
  let entropy := - tfReduceSum ((qvars.filter fun q => !q.is_datamodel).map
    fun q =>
      (if q.is_datamodel then batchWeight else 1)
        * tfReduceSum q.logProbAtValue)
  let elbo := energy + entropy ; -elbo

/-- The full `ELBO` function over abstract models: the expansion of the
approximating model (under interception with the observed values) and the
expansion of the generative model (under interception with the expanded
`qvars` merged with the observed values) are opaque engine operations, taken
as parameters `expandQ` and `expandP`; the loss is `ELBObody` on their
results.  `P`, `Q`, `S` are the types of generative models, approximating
models and observed-value mappings. -/
def ELBO {P Q S : Type} (expandQ : Q → S → Nat → List ExpandedVar)
    (expandP : P → List ExpandedVar → S → Nat → List ExpandedVar)
    (pmodel : P) (qmodel : Q) (sampleDict : S) (plateSize : Nat)
    (batchWeight : ℚ) : ℚ :=
  let qvars := expandQ qmodel sampleDict plateSize
  let pvars := expandP pmodel qvars sampleDict plateSize
  ELBObody pvars qvars batchWeight

/-- The weighting rule as the specification words it: `weight(v)` is the
re-weighting factor for variables flagged as per-batch-element, else 1. -/
def specWeight (batchWeight : ℚ) (v : ExpandedVar) : ℚ :=
  if v.is_datamodel then batchWeight else 1

/-- Energy as the specification words it: the sum over the expanded
generative model's variables of `weight(p)` times the sum of `p`'s
log-probability at its realized value. -/
def specEnergy (pvars : List ExpandedVar) (batchWeight : ℚ) : ℚ :=
  (pvars.map fun p => specWeight batchWeight p * p.logProbAtValue.sum).sum

/-- Entropy as the specification words it: the negative of the sum over the
expanded approximating model's variables that are not batch-flagged of
`weight(q)` times the sum of `q`'s log-probability at its realized value. -/
def specEntropy (qvars : List ExpandedVar) (batchWeight : ℚ) : ℚ :=
  - ((qvars.filter fun q => ¬ q.is_datamodel = true).map
      fun q => specWeight batchWeight q * q.logProbAtValue.sum).sum

/-! ## Model-building context
(`inferpy1/inferpy/models/contextmanager/q_model.py`)

The module keeps one process-wide mutable record `_properties` with keys
`active`, `graph`, `builder_vars`, `builder_params`, `pvars`.  It is embedded
as a structure, with `Option` distinguishing the inactive `None` values from
the dictionaries/graph installed on context entry.  Python dictionaries
become association lists (`name in d` is key membership, insertion of a fresh
key appends).  `V`, `P`, `PV` are the types of random variables, parameters
and the `pvars` mapping. -/

/-- A dependency graph over variable names (adjacency lists). -/
abbrev DepGraph := List (String × List String)

/-- Modelled from the spec: `tf_graph.get_empty_graph` (the module
`inferpy/util/tf_graph.py` is absent from the tree) returns an empty
dependency graph, as scope entry "initializes ... an empty dependency
graph". -/
def get_empty_graph : DepGraph := []

/-- The process-wide `_properties` record of the model-builder context. -/
structure BuilderProperties (V P PV : Type) where
  active : Bool
  graph : Option DepGraph
  builder_vars : Option (List (String × V))
  builder_params : Option (List (String × P))
  pvars : Option PV

/-- The inactive values of `_properties`: exactly the record the module is
initialized with, and the one the `finally` clause of `builder` restores. -/
def inactiveProperties (V P PV : Type) : BuilderProperties V P PV :=
  ⟨false, none, none, none, none⟩

/-- The Python exceptions the registration functions can raise:
`exceptions.NotUniqueRandomVariableName`, `exceptions.NotUniqueParameterName`
(each carrying its formatted message), and the `TypeError` Python raises when
`in` is applied to the inactive `None` registries. -/
inductive PyError where
  | notUniqueRandomVariableName (msg : String)
  | notUniqueParameterName (msg : String)
  | typeError
deriving DecidableEq, Repr

/-- The message of `NotUniqueRandomVariableName` in `register_variable` (the
Python source continues the string literal over a line break, keeping the
next line's leading spaces). -/
def duplicateVariableMsg (rvName : String) : String :=
  "Random Variable names must be unique among Random Variables and "
    ++ "Parameters.                 Detected twice: " ++ rvName

/-- The message of `NotUniqueParameterName` in `register_parameter`. -/
def duplicateParameterMsg (pName : String) : String :=
  "Parameter names must be unique among Parameters and Random Variables. "
    ++ "Detected twice: " ++ pName

/-- `register_variable(rv)`: raise `NotUniqueRandomVariableName` if `rv.name`
is a key of `builder_vars` or of `builder_params`, else insert `rv` into
`builder_vars` keyed by its name.  Membership tests follow Python's
evaluation order (`in` on a `None` registry is a `TypeError`). -/
def register_variable {V P PV : Type} (rvName : String) (rv : V)
    (props : BuilderProperties V P PV) :
    Except PyError (BuilderProperties V P PV) :=
  match props.builder_vars with
  | none => Except.error PyError.typeError
  | some vars =>
    if (vars.lookup rvName).isSome then
      Except.error
        (PyError.notUniqueRandomVariableName (duplicateVariableMsg rvName))
    else
      match props.builder_params with
      | none => Except.error PyError.typeError
      | some params =>
        if (params.lookup rvName).isSome then
          Except.error
            (PyError.notUniqueRandomVariableName (duplicateVariableMsg rvName))
        else
          Except.ok
            { props with builder_vars := some (vars ++ [(rvName, rv)]) }

/-- `register_parameter(p)`: symmetric to `register_variable`, with
`builder_params` checked first, raising `NotUniqueParameterName`. -/
def register_parameter {V P PV : Type} (pName : String) (p : P)
    (props : BuilderProperties V P PV) :
    Except PyError (BuilderProperties V P PV) :=
  match props.builder_params with
  | none => Except.error PyError.typeError
  | some params =>
    if (params.lookup pName).isSome then
      Except.error
        (PyError.notUniqueParameterName (duplicateParameterMsg pName))
    else
      match props.builder_vars with
      | none => Except.error PyError.typeError
      | some vars =>
        if (vars.lookup pName).isSome then
          Except.error
            (PyError.notUniqueParameterName (duplicateParameterMsg pName))
        else
          Except.ok
            { props with builder_params := some (params ++ [(pName, p)]) }

/-- The state installed by `builder` right after its assertion passes:
`active = True`, empty graph, empty `builder_vars` and `builder_params`
dictionaries, and `pvars` set to the argument. -/
def activeInitial {V P PV : Type} (pv : PV) : BuilderProperties V P PV :=
  { active := true
    graph := some get_empty_graph
    builder_vars := some []
    builder_params := some []
    pvars := some pv }

/-- Entering the `builder(pvars)` context: `assert not _properties['active']`
(an assertion failure, `none`, if a context is already active), then install
`activeInitial`. -/
def builderEnter {V P PV : Type} (pv : PV)
    (props : BuilderProperties V P PV) :
    Option (BuilderProperties V P PV) :=
  if props.active then none else some (activeInitial pv)

/-- The whole `builder(pvars)` scope around a body: enter (possibly failing
the assertion), run the body — which may finish normally (`Except.ok`) or
raise (`Except.error`) and leaves the record in some state — and in the
`finally` clause reset all five keys to their inactive values.  The outcome
of the body is propagated unchanged. -/
def builderScope {V P PV E A : Type} (pv : PV)
    (body :
      BuilderProperties V P PV → Except E A × BuilderProperties V P PV)
    (props : BuilderProperties V P PV) :
    Option (Except E A × BuilderProperties V P PV) :=
  match builderEnter pv props with
  | none => none
  | some entered =>
    let r := body entered
    some (r.1,
      { r.2 with
          active := false
          graph := none
          builder_vars := none
          builder_params := none
          pvars := none })

/-- A builder-scope body that registers one random variable under `rvName`
and reports whether the registration raised. -/
def registerBody {V P PV : Type} (rvName : String) (rv : V)
    (st : BuilderProperties V P PV) :
    Except PyError Unit × BuilderProperties V P PV :=
  match register_variable rvName rv st with
  | Except.ok st2 => (Except.ok (), st2)
  | Except.error e => (Except.error e, st)

/-- Scenario for the sequential-contexts half of the registration claim: run
one full builder scope whose body registers `rvName`, then a second full
scope registering the same name, and return the second registration's
outcome. -/
def twoScopesSameName {V P PV : Type} (rvName : String) (rv : V)
    (pv1 pv2 : PV) (props : BuilderProperties V P PV) :
    Option (Except PyError Unit) :=
  match builderScope pv1 (registerBody rvName rv) props with
  | none => none
  | some r1 =>
    match builderScope pv2 (registerBody rvName rv) r1.2 with
    | none => none
    | some r2 => some r2.1

/-- Auxiliary: looking a key up in an appended association list skips a
prefix in which the key is absent. -/
theorem lookup_append_of_none {α β : Type} [BEq α] (l₁ l₂ : List (α × β))
    (a : α) (h : l₁.lookup a = none) :
    (l₁ ++ l₂).lookup a = l₂.lookup a := by
  induction l₁ with
  | nil => rfl
  | cons hd tl ih =>
    obtain ⟨k, v⟩ := hd
    cases hb : (a == k) with
    | true => simp [List.lookup, hb] at h
    | false =>
      simp only [List.cons_append, List.lookup, hb] at h ⊢
      exact ih h

/-! ## Parameter-shape validation (`inferpy/models/normal.py`)

`Normal.__init__(loc, scale, dim, ...)` calls the private method
`__check_params(loc, scale, dim)` before building anything; every validation
error of the claim is raised there.  A `loc`/`scale` argument is a Python
scalar or a (possibly nested) array; `np.ndim` and `np.size` are its number
of axes and total element count. -/

/-- A `loc` or `scale` argument as NumPy classifies it: a scalar, a 1-D
vector, or a multidimensional (here 2-D) array. -/
inductive NpParam where
  | scalar (x : ℚ)
  | vector (xs : List ℚ)
  | matrix (xss : List (List ℚ))
deriving DecidableEq, Repr

/-- `np.ndim` of a parameter. -/
def npNdim : NpParam → Nat
  | NpParam.scalar _ => 0
  | NpParam.vector _ => 1
  | NpParam.matrix _ => 2

/-- `np.size` of a parameter (1 for a scalar). -/
def npSize : NpParam → Nat
  | NpParam.scalar _ => 1
  | NpParam.vector xs => xs.length
  | NpParam.matrix xss => (xss.map List.length).sum

/-- `Normal.__check_params(loc, scale, dim)`: raise `ValueError` if a
parameter has more than one axis; if both parameters are multi-element with
different lengths; or if a multi-element parameter's length disagrees with an
explicit `dim`.  The two `dim` checks are guarded by `dim != None` in the
source, embedded as one match on the optional `dim`. -/
def checkParams (loc scale : NpParam) (dim : Option Nat) :
    Except String Unit :=
  if npNdim loc > 1 ∨ npNdim scale > 1 then
    Except.error "loc and scale cannot be multidimensional arrays"
  else if npSize loc > 1 ∧ npSize scale > 1 ∧ npSize loc ≠ npSize scale then
    Except.error "loc and scale lengths must be equal or must be 1"
  else
    match dim with
    | none => Except.ok ()
    | some d =>
      if npSize loc > 1 ∧ d ≠ npSize loc then
        Except.error "loc length is not consistent with value in dim"
      else if npSize scale > 1 ∧ d ≠ npSize scale then
        Except.error "scale length is not consistent with value in dim"
      else
        Except.ok ()

/-! ## Legacy wrapper methods (`inferpy/models/random_variable.py`) and
`tf_run_wrapper` (`inferpy1/inferpy/util/wrappers.py`)

The legacy wrapper stores an Edward distribution in `self._dist` and its
`sample`/`prob`/`log_prob` methods, decorated with `@tf_run_wrapper`, call
the same-named method of the distribution — `prob` and `log_prob` after
`tf.cast(v, tf.float64)`.  The engine builds symbolic graphs, so its objects
are embedded as a free term algebra of graph nodes: opaque inputs, `tf.cast`
nodes, and distribution-method application nodes.  `tf.cast` returns its
argument unchanged when it already has the requested dtype, and otherwise
builds a new cast node. -/

/-- The numeric dtypes relevant to the legacy wrapper. -/
inductive DType where
  | float32 | float64 | int32
deriving DecidableEq, Repr

/-- A symbolic engine object: an opaque input (with a dtype and an
identity), a `tf.cast` node, or the result of calling a distribution method
(named by its string name, on the distribution with the given identity and
dtype) on an argument. -/
inductive tfVal where
  | input (d : DType) (id : Nat)
  | castNode (d : DType) (v : tfVal)
  | distNode (method : String) (distId : Nat) (d : DType) (arg : tfVal)
deriving DecidableEq, Repr

/-- The dtype of a symbolic engine object. -/
def tfVal.dtype : tfVal → DType
  | input d _ => d
  | castNode d _ => d
  | distNode _ _ d _ => d

/-- `tf.cast(v, d)`: the argument itself if it already has dtype `d`,
otherwise a new cast node of dtype `d`. -/
def tfCast (v : tfVal) (d : DType) : tfVal :=
  if v.dtype = d then v else tfVal.castNode d v

/-- An Edward distribution object: its identity and its dtype; its methods
produce result nodes of its dtype. -/
structure EdDist where
  id : Nat
  dtype : DType
deriving DecidableEq, Repr

/-- `dist.sample(v)` of the native distribution. -/
def EdDist.sampleM (dist : EdDist) (v : tfVal) : tfVal :=
  tfVal.distNode "sample" dist.id dist.dtype v

/-- `dist.prob(v)` of the native distribution. -/
def EdDist.probM (dist : EdDist) (v : tfVal) : tfVal :=
  tfVal.distNode "prob" dist.id dist.dtype v

/-- `dist.log_prob(v)` of the native distribution. -/
def EdDist.logProbM (dist : EdDist) (v : tfVal) : tfVal :=
  tfVal.distNode "log_prob" dist.id dist.dtype v

/-- The legacy `RandomVariable` wrapper: `self._dist`, exposed through the
`dist` property. -/
structure LegacyRandomVariable where
  dist : EdDist
deriving DecidableEq, Repr

/-- `tf_run_wrapper(f)`: pop the per-call `tf_run` keyword if present, else
use the process-wide `tf_run_default`, and pass `f`'s result through
`tf_run_eval` with that flag. -/
def tfRunWrapper {A : Type} (f : A → tfVal) (a : A) (tfRunKw : Option Bool)
    (tfRunDefault : Bool) : RunOutcome tfVal :=
  tf_run_eval (f a) (tfRunKw.getD tfRunDefault)

/-- `RandomVariable.sample(self, v)` under `@tf_run_wrapper`:
`self.dist.sample(v)` — the argument is passed uncast. -/
def LegacyRandomVariable.sample (self : LegacyRandomVariable) (v : tfVal)
    (tfRunKw : Option Bool) (tfRunDefault : Bool) : RunOutcome tfVal :=
  tfRunWrapper (fun x => self.dist.sampleM x) v tfRunKw tfRunDefault

/-- `RandomVariable.prob(self, v)` under `@tf_run_wrapper`:
`self.dist.prob(tf.cast(v, tf.float64))`. -/
def LegacyRandomVariable.prob (self : LegacyRandomVariable) (v : tfVal)
    (tfRunKw : Option Bool) (tfRunDefault : Bool) : RunOutcome tfVal :=
  tfRunWrapper (fun x => self.dist.probM (tfCast x DType.float64)) v
    tfRunKw tfRunDefault

/-- `RandomVariable.log_prob(self, v)` under `@tf_run_wrapper`:
`self.dist.log_prob(tf.cast(v, tf.float64))`. -/
def LegacyRandomVariable.log_prob (self : LegacyRandomVariable) (v : tfVal)
    (tfRunKw : Option Bool) (tfRunDefault : Bool) : RunOutcome tfVal :=
  tfRunWrapper (fun x => self.dist.logProbM (tfCast x DType.float64)) v
    tfRunKw tfRunDefault

/-! ## The `observed` property of the legacy wrapper

```
@property
def observed(self):
    return self.observed

@observed.setter
def observed(self, observed):
    self.__observed = observed
```

The property is a data descriptor on the class, so every attribute access
`self.observed` re-enters the getter, regardless of the name-mangled
instance slot `_RandomVariable__observed` that the setter writes.  Attribute
access is embedded with an explicit recursion budget (Python's recursion
limit): each getter call spends one unit and re-invokes the getter, and an
exhausted budget is Python's `RecursionError`. -/

/-- The instance state the setter writes: the name-mangled
`_RandomVariable__observed` slot (absent until the setter runs). -/
structure LegacyObservedState where
  observedSlot : Option Bool
deriving DecidableEq, Repr

/-- The `observed` setter: store the flag in the name-mangled slot. -/
def observedSetter (rv : LegacyObservedState) (flag : Bool) :
    LegacyObservedState :=
  { rv with observedSlot := some flag }

/-- The result of a Python attribute access: a value, or `RecursionError`
when the recursion limit is exhausted. -/
inductive PyAccess (A : Type) where
  | value (a : A)
  | recursionError
deriving DecidableEq, Repr

/-- The `observed` getter with an explicit recursion budget: its body
`return self.observed` re-enters the same getter with one budget unit less;
a spent budget is `RecursionError`. -/
def observedGetter (rv : LegacyObservedState) : Nat → PyAccess Bool
  | 0 => PyAccess.recursionError
  | depth + 1 => observedGetter rv depth

/-- **C1.** For every supported binary operator and every pair of operands
where the left is a wrapped random variable and the right is a wrapped random
variable, a native object, or a constant, the overload returns exactly the
native engine's corresponding operator applied to the unwrapped operands, and
the result is never a new wrapped random variable. -/
theorem binop_unwraps_and_is_native {N : Type} (engine : Engine N)
    (self : RandomVariable N) (other : PyVal N) (op : OpName) :
    RandomVariable.binop engine self other op
      = PyVal.native (engine op self.var (PyVal.unwrap other)) ∧
    (RandomVariable.binop engine self other op).isWrapped = false := by
  constructor
  · rfl
  · rfl

/-- **C2.** For every generative model, approximating model, observed-value
mapping, batch size and re-weighting factor, the ELBO function returns the
negative of (energy + entropy), with energy the weighted sum of
log-probability sums over the expanded generative model's variables, entropy
the negative weighted sum over the expanded approximating model's non-batch
variables, and weight `batchWeight` for batch-flagged variables and 1
otherwise. -/
theorem ELBO_eq_neg_energy_add_entropy {P Q S : Type}
    (expandQ : Q → S → Nat → List ExpandedVar)
    (expandP : P → List ExpandedVar → S → Nat → List ExpandedVar)
    (pmodel : P) (qmodel : Q) (sampleDict : S) (plateSize : Nat)
    (batchWeight : ℚ) :
    ELBO expandQ expandP pmodel qmodel sampleDict plateSize batchWeight
      = -(specEnergy
            (expandP pmodel (expandQ qmodel sampleDict plateSize) sampleDict
              plateSize) batchWeight
          + specEntropy (expandQ qmodel sampleDict plateSize) batchWeight) := by
  have hf : (fun q : ExpandedVar => !q.is_datamodel)
      = (fun q : ExpandedVar => decide (¬ q.is_datamodel = true)) := by
    funext q
    cases h : q.is_datamodel <;> simp [h]
  simp [ELBO, ELBObody, specEnergy, specEntropy, specWeight, tfReduceSum, hf]

/-- **C3.** Within one active model-building context, `register_variable`
raises the duplicate-name error iff the name is a key of the registered
variables or of the registered parameters, and otherwise adds the variable to
the variables mapping keyed by its name; `register_parameter` is symmetric
over the same two mappings; and registering the same name in two sequential
(non-overlapping) activated contexts succeeds. -/
theorem register_duplicate_name_iff {V P PV : Type}
    (props : BuilderProperties V P PV) (vars : List (String × V))
    (params : List (String × P)) (rvName pName : String) (rv : V) (p : P)
    (hv : props.builder_vars = some vars)
    (hp : props.builder_params = some params) :
    (register_variable rvName rv props
        = Except.error
            (PyError.notUniqueRandomVariableName (duplicateVariableMsg rvName))
      ↔ ((vars.lookup rvName).isSome ∨ (params.lookup rvName).isSome)) ∧
    (vars.lookup rvName = none → params.lookup rvName = none →
      register_variable rvName rv props
          = Except.ok
              { props with builder_vars := some (vars ++ [(rvName, rv)]) } ∧
        (vars ++ [(rvName, rv)]).lookup rvName = some rv) ∧
    (register_parameter pName p props
        = Except.error
            (PyError.notUniqueParameterName (duplicateParameterMsg pName))
      ↔ ((params.lookup pName).isSome ∨ (vars.lookup pName).isSome)) ∧
    (params.lookup pName = none → vars.lookup pName = none →
      register_parameter pName p props
          = Except.ok
              { props with builder_params := some (params ++ [(pName, p)]) } ∧
        (params ++ [(pName, p)]).lookup pName = some p) ∧
    (∀ (pv1 pv2 : PV) (props0 : BuilderProperties V P PV),
      props0.active = false →
      twoScopesSameName rvName rv pv1 pv2 props0 = some (Except.ok ())) := by
  refine ⟨?_, ?_, ?_, ?_, ?_⟩
  · by_cases h1 : (vars.lookup rvName).isSome <;>
      by_cases h2 : (params.lookup rvName).isSome <;>
      simp [register_variable, hv, hp, h1, h2]
  · intro h1 h2
    refine ⟨by simp [register_variable, hv, hp, h1, h2], ?_⟩
    rw [lookup_append_of_none _ _ _ h1]
    simp [List.lookup]
  · by_cases h1 : (params.lookup pName).isSome <;>
      by_cases h2 : (vars.lookup pName).isSome <;>
      simp [register_parameter, hv, hp, h1, h2]
  · intro h1 h2
    refine ⟨by simp [register_parameter, hv, hp, h1, h2], ?_⟩
    rw [lookup_append_of_none _ _ _ h1]
    simp [List.lookup]
  · intro pv1 pv2 props0 h0
    simp [twoScopesSameName, builderScope, builderEnter, h0, registerBody,
      register_variable, activeInitial, List.lookup]

/-- Witness for C3: in a concrete active context with empty registries,
registering `"x"` succeeds and keys the entry by its name, and registering
`"x"` in each of two sequential builder scopes succeeds. -/
theorem register_duplicate_name_iff_witness :
    (register_variable "x" (1 : Nat)
        (⟨true, some [], some [], some [], some 0⟩ :
          BuilderProperties Nat Nat Nat)
        = Except.ok
            (⟨true, some [], some [("x", 1)], some [], some 0⟩ :
              BuilderProperties Nat Nat Nat) ∧
      ([("x", (1 : Nat))]).lookup "x" = some 1) ∧
    twoScopesSameName "x" (1 : Nat) (0 : Nat) (0 : Nat)
        (inactiveProperties Nat Nat Nat)
      = some (Except.ok ()) :=
  ⟨(register_duplicate_name_iff
      (⟨true, some [], some [], some [], some 0⟩ :
        BuilderProperties Nat Nat Nat) [] [] "x" "y" 1 2 rfl rfl).2.1
      rfl rfl,
   (register_duplicate_name_iff
      (⟨true, some [], some [], some [], some 0⟩ :
        BuilderProperties Nat Nat Nat) [] [] "x" "y" 1 2 rfl rfl).2.2.2.2
      0 0 (inactiveProperties Nat Nat Nat) rfl⟩

/-- **C4.** Entering the model-building context while a context is already
active fails the assertion; on successful entry the context is marked active
with an empty variables registry, an empty parameters registry, and an empty
dependency graph. -/
theorem builder_entry_asserts_and_initializes {V P PV : Type} (pv : PV)
    (props : BuilderProperties V P PV) :
    (props.active = true → builderEnter pv props = none) ∧
    (props.active = false →
      builderEnter pv props = some (activeInitial pv) ∧
      (activeInitial (V := V) (P := P) pv).active = true ∧
      (activeInitial (V := V) (P := P) pv).builder_vars = some [] ∧
      (activeInitial (V := V) (P := P) pv).builder_params = some [] ∧
      (activeInitial (V := V) (P := P) pv).graph = some get_empty_graph ∧
      get_empty_graph = []) := by
  constructor
  · intro h
    simp [builderEnter, h]
  · intro h
    exact ⟨by simp [builderEnter, h], rfl, rfl, rfl, rfl, rfl⟩

/-- Witness for C4: entry fails on a concrete already-active record and
succeeds on the concrete inactive record. -/
theorem builder_entry_asserts_and_initializes_witness :
    builderEnter (0 : Nat)
        (⟨true, none, none, none, none⟩ : BuilderProperties Nat Nat Nat)
      = none ∧
    builderEnter (0 : Nat) (inactiveProperties Nat Nat Nat)
      = some (activeInitial 0) :=
  ⟨(builder_entry_asserts_and_initializes 0
      (⟨true, none, none, none, none⟩ : BuilderProperties Nat Nat Nat)).1 rfl,
   ((builder_entry_asserts_and_initializes 0
      (inactiveProperties Nat Nat Nat)).2 rfl).1⟩

/-- **C5.** On every exit of the model-building scope — whether the body
finished normally or raised — all context state is cleared: the final record
is the inactive one (active flag `false`, graph, variables, parameters and
pvars all `None`), and the body's outcome is propagated unchanged. -/
theorem builder_exit_clears_state {V P PV E A : Type} (pv : PV)
    (body :
      BuilderProperties V P PV → Except E A × BuilderProperties V P PV)
    (props : BuilderProperties V P PV) (h : props.active = false) :
    builderScope pv body props
      = some ((body (activeInitial pv)).1, inactiveProperties V P PV) ∧
    (inactiveProperties V P PV).active = false ∧
    (inactiveProperties V P PV).graph = none ∧
    (inactiveProperties V P PV).builder_vars = none ∧
    (inactiveProperties V P PV).builder_params = none ∧
    (inactiveProperties V P PV).pvars = none := by
  refine ⟨?_, rfl, rfl, rfl, rfl, rfl⟩
  simp [builderScope, builderEnter, h, inactiveProperties]

/-- Witness for C5: a concrete body that raises still leaves the record in
the inactive state, and its error is propagated. -/
theorem builder_exit_clears_state_witness :
    builderScope (0 : Nat)
        (fun st : BuilderProperties Nat Nat Nat =>
          ((Except.error "boom" : Except String Unit), st))
        (inactiveProperties Nat Nat Nat)
      = some (Except.error "boom", inactiveProperties Nat Nat Nat) :=
  (builder_exit_clears_state 0
    (fun st : BuilderProperties Nat Nat Nat =>
      ((Except.error "boom" : Except String Unit), st))
    (inactiveProperties Nat Nat Nat) rfl).1

/-- **C8.** For an attribute name not defined on the wrapper: if the wrapped
native object has the attribute, the access yields that attribute; otherwise,
if the wrapped object's distribution has it, the access yields the
distribution's attribute; otherwise the access fails with a not-implemented
error whose message names both the missing attribute and the wrapped object's
type. -/
theorem getattr_fallback_order {A : Type} (tfRunDefault : Bool)
    (self : WrapperRV A) (attrName : String) :
    (∀ a, self.var.attrs.lookup attrName = some a →
      getattrFallback tfRunDefault self attrName
          = Except.ok (tf_run_eval a tfRunDefault) ∧
        (tf_run_eval a tfRunDefault).payload = a) ∧
    (self.var.attrs.lookup attrName = none →
      ∀ a, self.var.distribution.attrs.lookup attrName = some a →
        getattrFallback tfRunDefault self attrName
            = Except.ok (tf_run_eval a tfRunDefault) ∧
          (tf_run_eval a tfRunDefault).payload = a) ∧
    (self.var.attrs.lookup attrName = none →
      self.var.distribution.attrs.lookup attrName = none →
      getattrFallback tfRunDefault self attrName
        = Except.error ("Property or method \"" ++ attrName
            ++ "\" not implemented in \"" ++ self.var.className ++ "\"")) := by
  refine ⟨fun a h => ?_, fun h a h' => ?_, fun h h' => ?_⟩
  · refine ⟨?_, ?_⟩
    · simp [getattrFallback, h]
    · cases tfRunDefault <;> rfl
  · refine ⟨?_, ?_⟩
    · simp [getattrFallback, h, h']
    · cases tfRunDefault <;> rfl
  · simp [getattrFallback, h, h']

/-- Witness for C8 on a concrete wrapper with no `"z"` attribute anywhere:
the lookup hypotheses hold and the access fails naming the attribute and the
wrapped class. -/
theorem getattr_fallback_order_witness :
    getattrFallback true
        (⟨⟨"RandomVariable", [("x", 1)], ⟨"distname", [("y", 2)]⟩⟩⟩ :
          WrapperRV Nat) "z"
      = Except.error
          "Property or method \"z\" not implemented in \"RandomVariable\"" :=
  (getattr_fallback_order true
      (⟨⟨"RandomVariable", [("x", 1)], ⟨"distname", [("y", 2)]⟩⟩⟩ :
        WrapperRV Nat) "z").2.2 (by decide) (by decide)

/-- **C9.** The `name` property of the wrapper equals the underlying
distribution's name with exactly its final character removed: its character
list is the `dropLast` of the distribution name's character list, and for a
nonempty distribution name the original name is the property's value followed
by one final character. -/
theorem name_strips_last_char {A : Type} (self : WrapperRV A) :
    (self.nameProperty).data = self.var.distribution.name.data.dropLast ∧
    (self.var.distribution.name ≠ "" →
      ∃ c, self.var.distribution.name.data
        = (self.nameProperty).data ++ [c]) := by
  have hdata : (self.nameProperty).data
      = self.var.distribution.name.data.take
          (self.var.distribution.name.data.length - 1) := rfl
  have hdrop : (self.nameProperty).data
      = self.var.distribution.name.data.dropLast := by
    rw [hdata, List.dropLast_eq_take]
  refine ⟨hdrop, fun hne => ?_⟩
  have hnil : self.var.distribution.name.data ≠ [] := by
    intro hcon
    exact hne (by cases hdist : self.var.distribution.name with
      | mk l => simpa [hdist] using congrArg String.mk hcon)
  refine ⟨self.var.distribution.name.data.getLast hnil, ?_⟩
  rw [hdrop]
  exact (List.dropLast_append_getLast hnil).symm

/-- **C6.** Construction fails whenever two multi-element parameters have
different lengths or a multi-element parameter's length disagrees with the
explicit `dim`; concretely, location length 3 with scale length 5 fails
naming the offending pair, location length 3 with scalar scale and `dim = 3`
succeeds, and `dim = 5` with location length 3 fails. -/
theorem checkParams_shape_validation :
    (∀ (loc scale : NpParam) (dim : Option Nat),
      ((npSize loc > 1 ∧ npSize scale > 1 ∧ npSize loc ≠ npSize scale) ∨
        (∃ d, dim = some d ∧ npSize loc > 1 ∧ d ≠ npSize loc) ∨
        (∃ d, dim = some d ∧ npSize scale > 1 ∧ d ≠ npSize scale)) →
      ∃ msg, checkParams loc scale dim = Except.error msg) ∧
    checkParams (NpParam.vector [0, 0, 0]) (NpParam.vector [1, 1, 1, 1, 1])
        none
      = Except.error "loc and scale lengths must be equal or must be 1" ∧
    checkParams (NpParam.vector [0, 0, 0]) (NpParam.scalar 1) (some 3)
      = Except.ok () ∧
    checkParams (NpParam.vector [0, 0, 0]) (NpParam.scalar 1) (some 5)
      = Except.error "loc length is not consistent with value in dim" := by
  refine ⟨?_, rfl, rfl, rfl⟩
  intro loc scale dim h
  by_cases hnd : npNdim loc > 1 ∨ npNdim scale > 1
  · exact ⟨"loc and scale cannot be multidimensional arrays",
      by simp [checkParams, hnd]⟩
  · by_cases hlen : npSize loc > 1 ∧ npSize scale > 1 ∧
        npSize loc ≠ npSize scale
    · exact ⟨"loc and scale lengths must be equal or must be 1",
        by simp [checkParams, hnd, hlen]⟩
    · rcases h with h | ⟨d, hd, h1, h2⟩ | ⟨d, hd, h1, h2⟩
      · exact absurd h hlen
      · subst hd
        by_cases hloc : npSize loc > 1 ∧ d ≠ npSize loc
        · refine ⟨"loc length is not consistent with value in dim", ?_⟩
          simp [checkParams, hnd, hlen, hloc]
          intro hb
          by_contra hne
          exact hlen ⟨h1, hb, hne⟩
        · exact absurd ⟨h1, h2⟩ hloc
      · subst hd
        by_cases hloc : npSize loc > 1 ∧ d ≠ npSize loc
        · refine ⟨"loc length is not consistent with value in dim", ?_⟩
          simp [checkParams, hnd, hlen, hloc]
          intro hb
          by_contra hne
          exact hlen ⟨hloc.1, hb, hne⟩
        · by_cases hsc : npSize scale > 1 ∧ d ≠ npSize scale
          · refine ⟨"scale length is not consistent with value in dim", ?_⟩
            simp [checkParams, hnd, hlen, hloc, hsc]
            intro ha
            by_contra hne
            exact hlen ⟨ha, h1, hne⟩
          · exact absurd ⟨h1, h2⟩ hsc

/-- Witness for C6: the general mismatch implication applied to a concrete
location of length 3 with an explicit dimension 7. -/
theorem checkParams_shape_validation_witness :
    ∃ msg, checkParams (NpParam.vector [0, 0, 0]) (NpParam.scalar 1) (some 7)
      = Except.error msg :=
  checkParams_shape_validation.1 (NpParam.vector [0, 0, 0]) (NpParam.scalar 1)
    (some 7) (Or.inr (Or.inl ⟨7, rfl, by decide, by decide⟩))

/-- **C7 counterexample.** At a concrete wrapped variable (a float64
distribution) and a concrete input (an int32 tensor), `sample` does not
equal delegation of the input cast to the distribution's numeric type: the
method passes its argument uncast, refuting the claim's "casting the input v
to the distribution's numeric type" for `sample`. -/
theorem legacy_sample_does_not_cast :
    LegacyRandomVariable.sample ⟨⟨0, DType.float64⟩⟩
        (tfVal.input DType.int32 7) none true
      ≠ tf_run_eval
          (EdDist.sampleM ⟨0, DType.float64⟩
            (tfCast (tfVal.input DType.int32 7)
              (EdDist.dtype ⟨0, DType.float64⟩))) true := by
  decide

/-- **C7 (amended).** For every wrapped variable, input and flag
configuration: `sample` delegates to the distribution's `sample` with its
argument uncast; `prob` and `log_prob` delegate to the same-named
distribution method after casting the input to float64; the result is
materialized or kept symbolic according to the per-call flag, falling back
to the process-wide default when the per-call flag is absent. -/
theorem legacy_methods_delegate (self : LegacyRandomVariable) (v : tfVal)
    (tfRunKw : Option Bool) (tfRunDefault : Bool) (b : Bool) :
    self.sample v tfRunKw tfRunDefault
      = tf_run_eval (self.dist.sampleM v) (tfRunKw.getD tfRunDefault) ∧
    self.prob v tfRunKw tfRunDefault
      = tf_run_eval (self.dist.probM (tfCast v DType.float64))
          (tfRunKw.getD tfRunDefault) ∧
    self.log_prob v tfRunKw tfRunDefault
      = tf_run_eval (self.dist.logProbM (tfCast v DType.float64))
          (tfRunKw.getD tfRunDefault) ∧
    self.sample v (some b) tfRunDefault
      = tf_run_eval (self.dist.sampleM v) b ∧
    self.sample v none tfRunDefault
      = tf_run_eval (self.dist.sampleM v) tfRunDefault ∧
    tf_run_eval (self.dist.sampleM v) true
      = RunOutcome.evaluated (self.dist.sampleM v) ∧
    tf_run_eval (self.dist.sampleM v) false
      = RunOutcome.symbolic (self.dist.sampleM v) := by
  exact ⟨rfl, rfl, rfl, rfl, rfl, rfl, rfl⟩

/-- **C10.** Reading the legacy `observed` property never returns a value:
for every instance state — in particular after the setter stored a flag —
and every recursion budget, the access ends in `RecursionError`, never in a
value. -/
theorem observed_getter_never_returns (rv : LegacyObservedState)
    (depth : Nat) (flag : Bool) :
    observedGetter rv depth = PyAccess.recursionError ∧
    observedGetter (observedSetter rv flag) depth
      = PyAccess.recursionError ∧
    ∀ a, observedGetter rv depth ≠ PyAccess.value a := by
  have hall : ∀ (st : LegacyObservedState) (n : Nat),
      observedGetter st n = PyAccess.recursionError := by
    intro st n
    induction n with
    | zero => rfl
    | succ k ih => exact ih
  refine ⟨hall rv depth, hall _ depth, fun a h => ?_⟩
  rw [hall rv depth] at h
  exact PyAccess.noConfusion h

/-- Witness for C9: for a wrapper whose distribution is named
`"inf_Normal1"`, the name is nonempty and the property drops exactly the
final character. -/
theorem name_strips_last_char_witness :
    ∃ c, ("inf_Normal1" : String).data
      = (WrapperRV.nameProperty
          (⟨⟨"RandomVariable", [], ⟨"inf_Normal1", []⟩⟩⟩ :
            WrapperRV Nat)).data ++ [c] :=
  (name_strips_last_char
    (⟨⟨"RandomVariable", [], ⟨"inf_Normal1", []⟩⟩⟩ : WrapperRV Nat)).2
    (by decide)

end InferPy
